import Mathlib

/-!
# SatWatch — Conjunction Detection & Batch Risk-Monitoring Engine

Shallow embedding of the core of the SatWatch repository:

* `src/conjunction_risk.py` — `calculate_conjunction_risk`: the time-stepped
  closest-approach search between two satellites plus risk classification.
* `src/batch_monitor.py` — `monitor_all_pairs`: the pairwise batch scheduler
  with per-pair failure isolation and threshold filtering, and
  `save_results`: persistence of the batch report.
* `src/dashboard.py` — `load_conjunction_results` (report read-back) and
  `get_data_freshness_status` (element-set freshness grading).

Modelling conventions:

* Distances and positions are exact rationals (`ℚ`); the thresholds `1.0`,
  `5.0` and the rounding grid `0.001` are exactly representable, so the
  branch structure of the Python code is preserved.
* The orbit propagator (skyfield, SGP4) is an external oracle, per the
  system design: a satellite's position at sample step `k` is
  `at1 k : Option Vec3` (`none` models a propagation exception at that
  time step), and the AU-norm pipeline
  `(pos2 - pos1).distance().au * 149597870.7` is an oracle parameter
  `normKm : Vec3 → ℚ`.  The sampling grid is indexed by the step number
  `k`; the time of step `k` is `start + k · step_minutes`, so times are
  represented by step indices.
* Python exceptions become `Except String`; a raised exception is
  `Except.error msg`.
* `round(x, 3)` is Python round-half-to-even on the exact rational.
-/

namespace SatWatch

/-- 3D position vector (km, common geocentric frame), components exact. -/
structure Vec3 where
  x : ℚ
  y : ℚ
  z : ℚ
deriving DecidableEq

/-- Component-wise difference, as `pos2 - pos1` in the source. -/
def Vec3.sub (a b : Vec3) : Vec3 :=
  ⟨a.x - b.x, a.y - b.y, a.z - b.z⟩

/-- Component-wise negation (used to relate `pos2 - pos1` and `pos1 - pos2`). -/
def Vec3.neg (a : Vec3) : Vec3 :=
  ⟨-a.x, -a.y, -a.z⟩

/-- Integer rounding, half to even, as Python's built-in `round`. -/
def roundHalfEvenInt (s : ℚ) : ℤ :=
  if s - Int.floor s < 1/2 then Int.floor s
  else if 1/2 < s - Int.floor s then Int.floor s + 1
  else if Int.floor s % 2 = 0 then Int.floor s else Int.floor s + 1

/-- Python `round(q, 3)`: round to the nearest multiple of 1/1000, ties to even. -/
def pyRound3 (q : ℚ) : ℚ :=
  (roundHalfEvenInt (q * 1000) : ℚ) / 1000

/-- The risk-classification branch of `calculate_conjunction_risk`
(conjunction_risk.py lines 118–139): strict thresholds at 1.0 km and 5.0 km. -/
def risk_level_of (d : ℚ) : String :=
  if d < 1 then "CRITICAL"
  else if d < 5 then "HIGH RISK"
  else "NORMAL"

/-- The `risk_levels` rank dictionary of `monitor_all_pairs`
(batch_monitor.py line 144), with `.get(key, 0)` defaulting to 0. -/
def risk_levels (s : String) : ℕ :=
  if s = "NORMAL" then 0
  else if s = "HIGH RISK" then 1
  else if s = "CRITICAL" then 2
  else 0

/-- The result dictionary built by `calculate_conjunction_risk`
(conjunction_risk.py lines 142–152).  `min_distance_time` is the step index
of the minimum (the datetime is `start + index · step_minutes`); the
human-readable `risk_message` and the best-effort sub-point enrichment are
presentation-only and not modelled. -/
structure CalcResult where
  min_distance_km : ℚ
  min_distance_time : ℕ
  risk_level : String
  sat1_name : String
  sat2_name : String
  total_steps : ℕ
  analysis_period_hours : ℕ
  step_size_minutes : ℕ
deriving DecidableEq

/-- One iteration of the propagation loop (conjunction_risk.py lines 94–116):
positions of both satellites at step `k`, then the km distance; if either
propagation raises, the sample is skipped (`none`). -/
def stepSample (normKm : Vec3 → ℚ) (at1 at2 : ℕ → Option Vec3) (k : ℕ) :
    Option ℚ :=
  match at1 k, at2 k with
  | some p1, some p2 => some (normKm (Vec3.sub p2 p1))
  | _, _ => none

/-- The minimum-tracking loop (conjunction_risk.py lines 82–116):
`min_distance` starts at infinity (`none`) and is replaced on strict
decrease, so the earliest step attaining the minimum is kept.  Returns the
final `(min_distance, min_distance_time)`, or `none` when no sample was
valid (`min_distance` still infinite). -/
def trackMin (sample : ℕ → Option ℚ) (numSteps : ℕ) : Option (ℚ × ℕ) :=
  (List.range (numSteps + 1)).foldl
    (fun acc k =>
      match sample k with
      | none => acc
      | some d =>
        match acc with
        | none => some (d, k)
        | some md => if d < md.1 then some (d, k) else some md)
    none

/-- The exception raised when no sample was valid: `min_distance` is still
infinite, the classification chain falls into the NORMAL branch, and
building `risk_message` calls `.strftime` on `min_distance_time = None`. -/
def strftimeNoneError : String :=
  "AttributeError: NoneType object has no attribute strftime"

/-- `calculate_conjunction_risk` (conjunction_risk.py lines 17–176),
parameterised by the propagation oracle.  `num_steps = hours_ahead * 60 //
step_minutes`; the loop runs over steps `0 … num_steps` inclusive.  The
risk level is computed from the unrounded minimum; the reported
`min_distance_km` is rounded to 3 decimals. -/
def calculate_conjunction_risk (normKm : Vec3 → ℚ) (at1 at2 : ℕ → Option Vec3)
    (sat1_name sat2_name : String) (hours_ahead step_minutes : ℕ) :
    Except String CalcResult :=
  match trackMin (stepSample normKm at1 at2)
      (hours_ahead * 60 / step_minutes) with
  | none => Except.error strftimeNoneError
  | some md =>
    Except.ok
      { min_distance_km := pyRound3 md.1
        min_distance_time := md.2
        risk_level := risk_level_of md.1
        sat1_name := sat1_name
        sat2_name := sat2_name
        total_steps := hours_ahead * 60 / step_minutes + 1
        analysis_period_hours := hours_ahead
        step_size_minutes := step_minutes }

/-- The `(min_distance_km, min_distance_time)` pair of a finder outcome,
`none` when the finder raised. -/
def minFields (e : Except String CalcResult) : Option (ℚ × ℕ) :=
  match e with
  | Except.ok r => some (r.min_distance_km, r.min_distance_time)
  | Except.error _ => none

/-- The `(min_distance_km, risk_level)` pair of a finder outcome,
`none` when the finder raised. -/
def reported (e : Except String CalcResult) : Option (ℚ × String) :=
  match e with
  | Except.ok r => some (r.min_distance_km, r.risk_level)
  | Except.error _ => none

/-- C1: Risk-classification threshold boundaries.  For every non-negative
distance `d`: `d < 1.0` yields CRITICAL, `1.0 ≤ d < 5.0` yields HIGH RISK,
`d ≥ 5.0` yields NORMAL; in particular `classify(1.0) = HIGH RISK` (not
CRITICAL) and `classify(5.0) = NORMAL`. -/
theorem classification_threshold_boundaries (d : ℚ) (hd : 0 ≤ d) :
    (d < 1 → risk_level_of d = "CRITICAL") ∧
    (1 ≤ d → d < 5 → risk_level_of d = "HIGH RISK") ∧
    (5 ≤ d → risk_level_of d = "NORMAL") ∧
    risk_level_of 1 = "HIGH RISK" ∧
    risk_level_of 5 = "NORMAL" := by
  refine ⟨?_, ?_, ?_, ?_, ?_⟩
  · intro h
    simp [risk_level_of, h]
  · intro h1 h5
    rw [risk_level_of, if_neg (by linarith), if_pos h5]
  · intro h5
    rw [risk_level_of, if_neg (by linarith), if_neg (by linarith)]
  · norm_num [risk_level_of]
  · norm_num [risk_level_of]

/-- Witness for C1 at concrete distances. -/
theorem classification_threshold_boundaries_witness :
    risk_level_of 3 = "HIGH RISK" ∧ risk_level_of 1 = "HIGH RISK" := by
  have h := classification_threshold_boundaries 3 (by norm_num)
  exact ⟨h.2.1 (by norm_num) (by norm_num), h.2.2.2.1⟩

/-- C2: Risk classification is deterministic and antitone in rank: for
`d1 < d2` the rank of `classify d1` (CRITICAL = 2 > HIGH RISK = 1 >
NORMAL = 0) is at least the rank of `classify d2`, and classifying the same
distance twice yields the same result. -/
theorem classification_monotone (d1 d2 : ℚ) (h : d1 < d2) :
    risk_levels (risk_level_of d2) ≤ risk_levels (risk_level_of d1) ∧
    risk_level_of d1 = risk_level_of d1 := by
  refine ⟨?_, rfl⟩
  unfold risk_level_of
  split_ifs with ha hb hc hd he hf <;>
    simp [risk_levels] <;> linarith

/-- Witness for C2 at a concrete pair of distances. -/
theorem classification_monotone_witness :
    risk_levels (risk_level_of 3) ≤ risk_levels (risk_level_of (1/2)) :=
  (classification_monotone (1/2) 3 (by norm_num)).1

/-! ## Batch scheduler (batch_monitor.py, `monitor_all_pairs`)

The scheduler is parameterised over the type `τ` of TLE data dictionaries
(which it never inspects — it only passes them to the per-pair calculator)
and over the calculator `calcFn : τ → τ → Except String CalcResult`
(`calculate_conjunction_risk` in the source; keeping it a parameter models
fault injection exactly as the spec's isolation property demands).
`tleData` models the `satellites_tle_data` dict: `.get(catnr)` is `none`
when the fetch yielded nothing for that catalog number. -/

/-- One entry of the `tracked_satellites` configuration list. -/
structure SatConfig where
  catnr : ℕ
  name : String
deriving DecidableEq

/-- The body of the inner loop once both TLEs are present
(batch_monitor.py lines 169–184): run the calculator inside `try`; on
exception the pair is skipped; on success the result is kept only when its
risk rank meets the threshold. -/
def evalOne {τ : Type} (calcFn : τ → τ → Except String CalcResult)
    (min_level : ℕ) (p : τ × τ) : Option CalcResult :=
  match calcFn p.1 p.2 with
  | Except.error _ => none
  | Except.ok r =>
    if min_level ≤ risk_levels r.risk_level then some r else none

/-- The inner loop over `tracked_satellites[i+1:]` (lines 160–184), with
`t1` the TLE data of the outer satellite: pairs whose second TLE is missing
are skipped uncounted; otherwise `total_pairs` is incremented (before the
`try`, so failures still count as attempted) and a qualifying result is
appended.  Returns the appended results in order and the pair count. -/
def monitorInner {τ : Type} (calcFn : τ → τ → Except String CalcResult)
    (tleData : ℕ → Option τ) (min_level : ℕ) (t1 : τ) :
    List SatConfig → List CalcResult × ℕ
  | [] => ([], 0)
  | s2 :: rest =>
    let tail := monitorInner calcFn tleData min_level t1 rest
    match tleData s2.catnr with
    | none => tail
    | some t2 =>
      match evalOne calcFn min_level (t1, t2) with
      | none => (tail.1, tail.2 + 1)
      | some r => (r :: tail.1, tail.2 + 1)

/-- The outer loop over `tracked_satellites` (lines 151–184): a satellite
without TLE data is skipped (`continue`), otherwise its inner loop runs
over the remainder of the list. -/
def monitorOuter {τ : Type} (calcFn : τ → τ → Except String CalcResult)
    (tleData : ℕ → Option τ) (min_level : ℕ) :
    List SatConfig → List CalcResult × ℕ
  | [] => ([], 0)
  | s1 :: rest =>
    let tail := monitorOuter calcFn tleData min_level rest
    match tleData s1.catnr with
    | none => tail
    | some t1 =>
      let inner := monitorInner calcFn tleData min_level t1 rest
      (inner.1 ++ tail.1, inner.2 + tail.2)

/-- `monitor_all_pairs` (batch_monitor.py lines 123–187): returns the
filtered result list and `total_pairs`, the number of attempted pair
evaluations. -/
def monitor_all_pairs {τ : Type} (calcFn : τ → τ → Except String CalcResult)
    (tracked : List SatConfig) (tleData : ℕ → Option τ)
    (min_risk_level : String) : List CalcResult × ℕ :=
  monitorOuter calcFn tleData (risk_levels min_risk_level) tracked

/-- The TLE data of the evaluable objects, in configuration order. -/
def availTLEs {τ : Type} (tleData : ℕ → Option τ) (tracked : List SatConfig) :
    List τ :=
  tracked.filterMap (fun s => tleData s.catnr)

/-- All canonical (first-before-second) pairs of a list: each unordered
pair of positions appears exactly once. -/
def canonicalPairs {τ : Type} : List τ → List (τ × τ)
  | [] => []
  | a :: rest => (rest.map (fun b => (a, b))) ++ canonicalPairs rest

theorem monitorInner_eq {τ : Type} (calcFn : τ → τ → Except String CalcResult)
    (tleData : ℕ → Option τ) (lvl : ℕ) (t1 : τ) (l : List SatConfig) :
    monitorInner calcFn tleData lvl t1 l =
      (((availTLEs tleData l).map (fun t2 => (t1, t2))).filterMap
          (evalOne calcFn lvl),
        (availTLEs tleData l).length) := by
  induction l with
  | nil => rfl
  | cons s2 rest ih =>
    rw [monitorInner, ih]
    cases htd : tleData s2.catnr with
    | none =>
      simp [availTLEs, List.filterMap_cons, htd]
    | some t2 =>
      cases he : evalOne calcFn lvl (t1, t2) with
      | none =>
        simp [availTLEs, List.filterMap_cons, htd, he]
      | some r =>
        simp [availTLEs, List.filterMap_cons, htd, he]

theorem monitorOuter_eq {τ : Type} (calcFn : τ → τ → Except String CalcResult)
    (tleData : ℕ → Option τ) (lvl : ℕ) (l : List SatConfig) :
    monitorOuter calcFn tleData lvl l =
      ((canonicalPairs (availTLEs tleData l)).filterMap (evalOne calcFn lvl),
        (canonicalPairs (availTLEs tleData l)).length) := by
  induction l with
  | nil => rfl
  | cons s1 rest ih =>
    cases htd : tleData s1.catnr with
    | none =>
      simp only [monitorOuter, htd, ih]
      simp [availTLEs, List.filterMap_cons, htd]
    | some t1 =>
      simp only [monitorOuter, htd, ih, monitorInner_eq]
      simp [availTLEs, List.filterMap_cons, htd, canonicalPairs,
        List.filterMap_append, List.length_append]

theorem length_canonicalPairs {τ : Type} (l : List τ) :
    (canonicalPairs l).length = l.length.choose 2 := by
  induction l with
  | nil => rfl
  | cons a rest ih =>
    simp [canonicalPairs, ih, Nat.choose_succ_succ, Nat.choose_one_right,
      Nat.add_comm]

/-- C5: Pair count invariant.  With `n` the number of tracked entries whose
catalog number has TLE data, the scheduler attempts exactly `n·(n-1)/2`
pair evaluations; the evaluated pairs are exactly the canonical pairs of
the evaluable objects (each unordered pair once, never both orders), and
objects without an element set contribute no attempted pair. -/
theorem pair_count_invariant {τ : Type}
    (calcFn : τ → τ → Except String CalcResult) (tracked : List SatConfig)
    (tleData : ℕ → Option τ) (min_risk_level : String) :
    monitor_all_pairs calcFn tracked tleData min_risk_level =
      ((canonicalPairs (availTLEs tleData tracked)).filterMap
          (evalOne calcFn (risk_levels min_risk_level)),
        (availTLEs tleData tracked).length *
          ((availTLEs tleData tracked).length - 1) / 2) := by
  rw [monitor_all_pairs, monitorOuter_eq, length_canonicalPairs,
    Nat.choose_two_right]

/-- Boolean form of the threshold test `result_level >= min_level`. -/
def rankOK (min_level : ℕ) (r : CalcResult) : Bool :=
  decide (min_level ≤ risk_levels r.risk_level)

theorem filterMap_evalOne_eq_filter {τ : Type}
    (calcFn : τ → τ → Except String CalcResult) (lvl : ℕ)
    (l : List (τ × τ)) :
    l.filterMap (evalOne calcFn lvl) =
      (l.filterMap (fun p => (calcFn p.1 p.2).toOption)).filter (rankOK lvl) := by
  induction l with
  | nil => rfl
  | cons p rest ih =>
    rw [List.filterMap_cons, List.filterMap_cons]
    cases hc : calcFn p.1 p.2 with
    | error e =>
      simp [evalOne, hc, Except.toOption, ih]
    | ok r =>
      by_cases hr : lvl ≤ risk_levels r.risk_level
      · simp [evalOne, hc, Except.toOption, List.filter_cons, rankOK, hr, ih]
      · simp [evalOne, hc, Except.toOption, List.filter_cons, rankOK, hr, ih]

/-- C6: Threshold filtering postcondition.  For every batch input and every
configured minimum risk level, the returned result list is exactly the
successfully evaluated canonical pairs filtered to those whose risk rank
meets or exceeds the configured minimum (sub-threshold pairs are computed
but dropped). -/
theorem threshold_filter_postcondition {τ : Type}
    (calcFn : τ → τ → Except String CalcResult) (tracked : List SatConfig)
    (tleData : ℕ → Option τ) (min_risk_level : String) :
    (monitor_all_pairs calcFn tracked tleData min_risk_level).1 =
      ((canonicalPairs (availTLEs tleData tracked)).filterMap
          (fun p => (calcFn p.1 p.2).toOption)).filter
        (rankOK (risk_levels min_risk_level)) := by
  rw [monitor_all_pairs, monitorOuter_eq]
  exact filterMap_evalOne_eq_filter ..

theorem filterMap_evalOne_inject {τ : Type} [DecidableEq τ]
    (calcFn calcF : τ → τ → Except String CalcResult) (lvl : ℕ)
    (a0 b0 : τ) (e : String)
    (hfail : calcF a0 b0 = Except.error e)
    (hagree : ∀ a b : τ, (a, b) ≠ (a0, b0) → calcF a b = calcFn a b)
    (l : List (τ × τ)) :
    l.filterMap (evalOne calcF lvl) =
      (l.filter (fun p => p ≠ (a0, b0))).filterMap (evalOne calcFn lvl) := by
  induction l with
  | nil => rfl
  | cons p rest ih =>
    rw [List.filterMap_cons, List.filter_cons]
    by_cases hp : p = (a0, b0)
    · subst hp
      have he : evalOne calcF lvl (a0, b0) = none := by
        simp [evalOne, hfail]
      simp [he, ih]
    · have heq : evalOne calcF lvl p = evalOne calcFn lvl p := by
        rw [evalOne, evalOne, hagree p.1 p.2 (by simpa using hp)]
      rw [heq]
      cases he : evalOne calcFn lvl p with
      | none => simp [hp, he, ih, List.filterMap_cons]
      | some r => simp [hp, he, ih, List.filterMap_cons]

/-- C4: Per-pair failure isolation.  If `calcF` fails on the specific pair
`(a0, b0)` and agrees with `calcFn` on every other pair, then the batch run
completes, its results are exactly those of evaluating every other pair
with the unfailed calculator, and the attempted-pair count is unchanged
(`total_pairs` is incremented before the `try`). -/
theorem failure_isolation {τ : Type} [DecidableEq τ]
    (calcFn calcF : τ → τ → Except String CalcResult)
    (tracked : List SatConfig) (tleData : ℕ → Option τ)
    (min_risk_level : String) (a0 b0 : τ) (e : String)
    (hfail : calcF a0 b0 = Except.error e)
    (hagree : ∀ a b : τ, (a, b) ≠ (a0, b0) → calcF a b = calcFn a b) :
    (monitor_all_pairs calcF tracked tleData min_risk_level).1 =
      ((canonicalPairs (availTLEs tleData tracked)).filter
          (fun p => p ≠ (a0, b0))).filterMap
        (evalOne calcFn (risk_levels min_risk_level)) ∧
    (monitor_all_pairs calcF tracked tleData min_risk_level).2 =
      (monitor_all_pairs calcFn tracked tleData min_risk_level).2 := by
  constructor
  · rw [monitor_all_pairs, monitorOuter_eq]
    exact filterMap_evalOne_inject calcFn calcF _ a0 b0 e hfail hagree _
  · rw [monitor_all_pairs, monitor_all_pairs, monitorOuter_eq, monitorOuter_eq]

theorem foldl_trackMin_skip (sample : ℕ → Option ℚ) (l : List ℕ)
    (acc : Option (ℚ × ℕ)) (h : ∀ k ∈ l, sample k = none) :
    l.foldl
      (fun acc k =>
        match sample k with
        | none => acc
        | some d =>
          match acc with
          | none => some (d, k)
          | some md => if d < md.1 then some (d, k) else some md) acc = acc := by
  induction l generalizing acc with
  | nil => rfl
  | cons k rest ih =>
    have hk : sample k = none := h k (by simp)
    rw [List.foldl_cons]
    simp only [hk]
    exact ih acc (fun j hj => h j (List.mem_cons_of_mem k hj))

theorem trackMin_none (sample : ℕ → Option ℚ) (numSteps : ℕ)
    (h : ∀ k ≤ numSteps, sample k = none) :
    trackMin sample numSteps = none := by
  rw [trackMin]
  exact foldl_trackMin_skip sample _ none
    (fun k hk => h k (by have := List.mem_range.mp hk; omega))

/-- C3: If position computation fails at every sample step of the window,
the finder raises (in the source: `min_distance` is still infinite, the
chain falls into the NORMAL branch, and `min_distance_time.strftime` on
`None` raises) rather than returning a result — in particular no result
with infinite minimum distance is ever produced — and any batch pair whose
evaluation is this failing computation contributes nothing to the report. -/
theorem no_valid_samples_error (normKm : Vec3 → ℚ) (at1 at2 : ℕ → Option Vec3)
    (n1 n2 : String) (hours_ahead step_minutes : ℕ)
    (hfail : ∀ k ≤ hours_ahead * 60 / step_minutes,
      at1 k = none ∨ at2 k = none) :
    calculate_conjunction_risk normKm at1 at2 n1 n2 hours_ahead step_minutes =
      Except.error strftimeNoneError ∧
    ∀ (τ : Type) (calcFn : τ → τ → Except String CalcResult) (lvl : ℕ)
      (t1 t2 : τ),
      calcFn t1 t2 =
        calculate_conjunction_risk normKm at1 at2 n1 n2 hours_ahead
          step_minutes →
      evalOne calcFn lvl (t1, t2) = none := by
  have hs : ∀ k ≤ hours_ahead * 60 / step_minutes,
      stepSample normKm at1 at2 k = none := by
    intro k hk
    rcases hfail k hk with h | h
    · simp [stepSample, h]
    · cases h1 : at1 k <;> simp [stepSample, h1, h]
  have herr : calculate_conjunction_risk normKm at1 at2 n1 n2 hours_ahead
      step_minutes = Except.error strftimeNoneError := by
    simp only [calculate_conjunction_risk, trackMin_none _ _ hs]
  refine ⟨herr, ?_⟩
  intro τ calcFn lvl t1 t2 hc
  simp [evalOne, hc, herr]

/-- Witness for C3: oracles that fail at every step make the finder raise. -/
theorem no_valid_samples_error_witness :
    calculate_conjunction_risk (fun v => v.x) (fun _ => none) (fun _ => none)
      "SAT-A" "SAT-B" 48 1 = Except.error strftimeNoneError :=
  (no_valid_samples_error (fun v => v.x) (fun _ => none) (fun _ => none)
    "SAT-A" "SAT-B" 48 1 (fun _ _ => Or.inl rfl)).1

theorem stepSample_swap (normKm : Vec3 → ℚ) (at1 at2 : ℕ → Option Vec3)
    (heven : ∀ v, normKm (Vec3.neg v) = normKm v) :
    stepSample normKm at2 at1 = stepSample normKm at1 at2 := by
  funext k
  cases h1 : at1 k with
  | none => cases h2 : at2 k <;> simp [stepSample, h1, h2]
  | some p =>
    cases h2 : at2 k with
    | none => simp [stepSample, h1, h2]
    | some q =>
      simp only [stepSample, h1, h2]
      have hv : Vec3.sub p q = Vec3.neg (Vec3.sub q p) := by
        simp only [Vec3.sub, Vec3.neg, Vec3.mk.injEq]
        refine ⟨by ring, by ring, by ring⟩
      rw [hv, heven]

/-- C7: Symmetry of the closest-approach search.  Over the same sampling
grid and the same position oracle, with the km-distance an even function of
the position difference (true of the Euclidean AU norm the source uses),
swapping the two satellites yields the same minimum distance and the same
time of minimum. -/
theorem closest_approach_symmetry (normKm : Vec3 → ℚ)
    (at1 at2 : ℕ → Option Vec3) (n1 n2 m1 m2 : String)
    (hours_ahead step_minutes : ℕ)
    (heven : ∀ v, normKm (Vec3.neg v) = normKm v) :
    minFields (calculate_conjunction_risk normKm at1 at2 n1 n2 hours_ahead
        step_minutes) =
      minFields (calculate_conjunction_risk normKm at2 at1 m1 m2 hours_ahead
        step_minutes) := by
  unfold calculate_conjunction_risk
  rw [stepSample_swap normKm at1 at2 heven]
  cases trackMin (stepSample normKm at1 at2)
    (hours_ahead * 60 / step_minutes) <;> rfl

/-- Witness for C7 with the L1 norm (even, exactly computable) and constant
position oracles. -/
theorem closest_approach_symmetry_witness :
    minFields (calculate_conjunction_risk (fun v => |v.x| + |v.y| + |v.z|)
        (fun _ => some ⟨1, 2, 3⟩) (fun _ => some ⟨4, 6, 3⟩) "A" "B" 0 1) =
      minFields (calculate_conjunction_risk (fun v => |v.x| + |v.y| + |v.z|)
        (fun _ => some ⟨4, 6, 3⟩) (fun _ => some ⟨1, 2, 3⟩) "B" "A" 0 1) :=
  closest_approach_symmetry (fun v => |v.x| + |v.y| + |v.z|)
    (fun _ => some ⟨1, 2, 3⟩) (fun _ => some ⟨4, 6, 3⟩) "A" "B" "B" "A" 0 1
    (fun v => by simp [Vec3.neg, abs_neg])

/-- Fixture for the C4 witness: a calculator that always succeeds. -/
def calcOkW (a b : ℕ) : Except String CalcResult :=
  Except.ok
    { min_distance_km := 10 + a + b
      min_distance_time := 0
      risk_level := "NORMAL"
      sat1_name := ""
      sat2_name := ""
      total_steps := 1
      analysis_period_hours := 0
      step_size_minutes := 1 }

/-- Fixture for the C4 witness: the same calculator with a failure injected
for the specific pair (1, 2). -/
def calcFailW (a b : ℕ) : Except String CalcResult :=
  if a = 1 ∧ b = 2 then Except.error "propagation failure" else calcOkW a b

/-- Fixture for the C4 witness: three tracked satellites. -/
def trackedW : List SatConfig :=
  [⟨1, "SAT-A"⟩, ⟨2, "SAT-B"⟩, ⟨3, "SAT-C"⟩]

/-- Witness for C4: injecting a failure for pair (1, 2) leaves the
attempted-pair count of the batch unchanged. -/
theorem failure_isolation_witness :
    (monitor_all_pairs calcFailW trackedW (fun n => some n) "NORMAL").2 =
      (monitor_all_pairs calcOkW trackedW (fun n => some n) "NORMAL").2 :=
  (failure_isolation calcOkW calcFailW trackedW (fun n => some n) "NORMAL"
    1 2 "propagation failure" (by simp [calcFailW])
    (fun a b hab => by
      have hne : ¬(a = 1 ∧ b = 2) := by
        intro hc
        exact hab (by rw [hc.1, hc.2])
      simp [calcFailW, hne])).2

/-! ## Batch report store (batch_monitor.py `save_results`,
dashboard.py `load_conjunction_results`)

The persisted JSON file is modelled as `Option ReportRecord`: `none` when
`data/conjunction_results.json` does not exist, `some r` when it holds the
serialized record `r`.  `json.dump` over the open file truncates and fully
rewrites it, so `save_results` replaces whatever was stored before. -/

/-- The output dictionary of `save_results` (batch_monitor.py lines
211–215): generation timestamp, `total_risks = len(results)`, and the
result list. -/
structure ReportRecord where
  timestamp : String
  total_risks : ℕ
  results : List CalcResult
deriving DecidableEq

/-- `save_results` (batch_monitor.py lines 190–221): builds the record and
overwrites the results file, ignoring any prior content. -/
def save_results (results : List CalcResult) (now : String)
    (prior : Option ReportRecord) : Option ReportRecord :=
  some { timestamp := now, total_risks := results.length, results := results }

/-- `load_conjunction_results` (dashboard.py lines 434–451): parse and
return the stored record if the file exists, `None` otherwise. -/
def load_conjunction_results (store : Option ReportRecord) :
    Option ReportRecord :=
  match store with
  | some r => some r
  | none => none

/-- C8: Report replace semantics (last-write-wins).  Saving report `A` and
then report `B` at the same location makes a subsequent load return exactly
the record for `B` — its timestamp, its result list, and a total count
equal to that list's length — so `A` is no longer retrievable. -/
theorem report_replace_semantics (A B : List CalcResult) (tA tB : String)
    (s0 : Option ReportRecord) :
    load_conjunction_results (save_results B tB (save_results A tA s0)) =
      some { timestamp := tB, total_risks := B.length, results := B } :=
  rfl

/-! ## Freshness grader (dashboard.py `get_data_freshness_status`)

Epoch and "now" are instants in seconds (the source subtracts two
datetimes and divides `total_seconds()` by 3600). -/

/-- `get_data_freshness_status` (dashboard.py lines 629–656): grades the
age of an element set against thresholds of 7, 10 and 14 days, returning
the grade and the age in hours (the human-readable message is
presentation-only and not modelled). -/
def get_data_freshness_status (epoch now : ℚ) : String × ℚ :=
  let hours_old := (now - epoch) / 3600
  if hours_old < 7 * 24 then ("fresh", hours_old)
  else if hours_old < 10 * 24 then ("warning", hours_old)
  else if hours_old < 14 * 24 then ("old", hours_old)
  else ("expired", hours_old)

/-- C9: Freshness grading boundaries.  Age strictly below 7×24 h is fresh;
ages in [7×24, 10×24) h — including exactly 7×24 — are warning; ages in
[10×24, 14×24) h are old; ages of 14×24 h or more are expired; and the
numeric age in hours is returned alongside the grade. -/
theorem freshness_boundaries (epoch now : ℚ) :
    (get_data_freshness_status epoch now).2 = (now - epoch) / 3600 ∧
    ((now - epoch) / 3600 < 168 →
      (get_data_freshness_status epoch now).1 = "fresh") ∧
    (168 ≤ (now - epoch) / 3600 → (now - epoch) / 3600 < 240 →
      (get_data_freshness_status epoch now).1 = "warning") ∧
    (240 ≤ (now - epoch) / 3600 → (now - epoch) / 3600 < 336 →
      (get_data_freshness_status epoch now).1 = "old") ∧
    (336 ≤ (now - epoch) / 3600 →
      (get_data_freshness_status epoch now).1 = "expired") := by
  refine ⟨?_, ?_, ?_, ?_, ?_⟩
  · simp only [get_data_freshness_status]
    split_ifs <;> rfl
  · intro h
    simp only [get_data_freshness_status]
    rw [if_pos (by linarith)]
  · intro h1 h2
    simp only [get_data_freshness_status]
    rw [if_neg (by linarith), if_pos (by linarith)]
  · intro h1 h2
    simp only [get_data_freshness_status]
    rw [if_neg (by linarith), if_neg (by linarith), if_pos (by linarith)]
  · intro h
    simp only [get_data_freshness_status]
    rw [if_neg (by linarith), if_neg (by linarith), if_neg (by linarith)]

/-- Witness for C9: an element set exactly 7×24 h old is graded warning. -/
theorem freshness_boundaries_witness :
    (get_data_freshness_status 0 604800).1 = "warning" :=
  (freshness_boundaries 0 604800).2.2.1 (by norm_num) (by norm_num)

theorem roundHalfEvenInt_halfup_odd (s : ℚ) (f : ℤ)
    (hfl : (f : ℚ) ≤ s) (hfu : s < (f : ℚ) + 1)
    (hhalf : (f : ℚ) + 1/2 ≤ s) (hodd : f % 2 = 1) :
    roundHalfEvenInt s = f + 1 := by
  have hf : Int.floor s = f := Int.floor_eq_iff.mpr ⟨hfl, hfu⟩
  rw [roundHalfEvenInt, hf]
  split_ifs with h1 h2 h3
  · exact absurd h1 (by push_cast; linarith)
  · rfl
  · exact absurd hodd (by omega)
  · rfl

theorem pyRound3_up_to_one (m : ℚ) (h1 : 9995/10000 ≤ m) (h2 : m < 1) :
    pyRound3 m = 1 := by
  have h := roundHalfEvenInt_halfup_odd (m * 1000) 999
    (by push_cast; linarith) (by push_cast; linarith)
    (by push_cast; linarith) (by decide)
  rw [pyRound3, h]
  norm_num

theorem pyRound3_up_to_five (m : ℚ) (h1 : 49995/10000 ≤ m) (h2 : m < 5) :
    pyRound3 m = 5 := by
  have h := roundHalfEvenInt_halfup_odd (m * 1000) 4999
    (by push_cast; linarith) (by push_cast; linarith)
    (by push_cast; linarith) (by decide)
  rw [pyRound3, h]
  norm_num

/-- C10: The returned `risk_level` is classified from the unrounded minimum
while the returned `min_distance_km` is that minimum rounded to 3 decimals,
so for a true minimum in [0.9995, 1.0) the result reports distance 1.0 with
level CRITICAL although 1.0 classifies as HIGH RISK, and for a true minimum
in [4.9995, 5.0) it reports distance 5.0 with level HIGH RISK although 5.0
classifies as NORMAL. -/
theorem rounding_classification_discrepancy (normKm : Vec3 → ℚ)
    (at1 at2 : ℕ → Option Vec3) (n1 n2 : String)
    (hours_ahead step_minutes : ℕ) (m : ℚ) (k : ℕ)
    (hrun : trackMin (stepSample normKm at1 at2)
        (hours_ahead * 60 / step_minutes) = some (m, k)) :
    (9995/10000 ≤ m → m < 1 →
      reported (calculate_conjunction_risk normKm at1 at2 n1 n2 hours_ahead
          step_minutes) = some (1, "CRITICAL") ∧
      risk_level_of 1 = "HIGH RISK") ∧
    (49995/10000 ≤ m → m < 5 →
      reported (calculate_conjunction_risk normKm at1 at2 n1 n2 hours_ahead
          step_minutes) = some (5, "HIGH RISK") ∧
      risk_level_of 5 = "NORMAL") := by
  have hcalc : calculate_conjunction_risk normKm at1 at2 n1 n2 hours_ahead
      step_minutes =
      Except.ok
        { min_distance_km := pyRound3 m
          min_distance_time := k
          risk_level := risk_level_of m
          sat1_name := n1
          sat2_name := n2
          total_steps := hours_ahead * 60 / step_minutes + 1
          analysis_period_hours := hours_ahead
          step_size_minutes := step_minutes } := by
    simp only [calculate_conjunction_risk, hrun]
  constructor
  · intro ha hb
    refine ⟨?_, by norm_num [risk_level_of]⟩
    rw [hcalc]
    simp only [reported]
    rw [pyRound3_up_to_one m ha hb, risk_level_of, if_pos hb]
  · intro ha hb
    refine ⟨?_, by norm_num [risk_level_of]⟩
    rw [hcalc]
    simp only [reported]
    rw [pyRound3_up_to_five m ha hb, risk_level_of,
      if_neg (by linarith), if_pos hb]

/-- Witness for C10: a constant true minimum of 0.9996 km is reported as
distance 1.0 with level CRITICAL. -/
theorem rounding_classification_discrepancy_witness :
    reported (calculate_conjunction_risk (fun v => v.x)
        (fun _ => some ⟨0, 0, 0⟩) (fun _ => some ⟨2499/2500, 0, 0⟩)
        "SAT-A" "SAT-B" 0 1) = some (1, "CRITICAL") ∧
    risk_level_of 1 = "HIGH RISK" :=
  (rounding_classification_discrepancy (fun v => v.x)
    (fun _ => some ⟨0, 0, 0⟩) (fun _ => some ⟨2499/2500, 0, 0⟩)
    "SAT-A" "SAT-B" 0 1 (2499/2500) 0
    (by norm_num [trackMin, stepSample, Vec3.sub, List.range_succ])).1
    (by norm_num) (by norm_num)

end SatWatch
